import Mathlib

/-!
# Verification of the `channels` audio mixing engine

Shallow embedding of the core of the `channels` library: the per-node
volume/mute controller (`VolumeNodes`) and the mixer root (`Channels`)
with its channel registry and active-`PlayingSound` registry.

Volumes are modelled as rationals (`ℚ`): the source manipulates JS
numbers only through assignment and comparison, never through
floating-point arithmetic, so exact rationals are a faithful model of
the values the claims mention.

Errors: the source throws `Error` objects with messages; the spec's
error taxonomy names these conditions `InvalidArgument`,
`DuplicateChannel`, `ChannelNotFound`, `SampleNotFound`,
`NotRegistered`.  The embedding uses the taxonomy names, each
constructor corresponding to exactly one `throw new Error(...)` site of
the source.

Effectful operations are modelled as functions returning
`State × Except Error α` (and, for `VolumeNodes`, also the list of
volume-change notifications dispatched during the call): an `.error`
result paired with a state is the state the mutable object holds at the
moment the exception propagates.  In every operation of the source the
throws precede all state mutation, which the definitions below mirror.

Out of scope of the claims, and therefore of the embedding, is the
audio-graph wiring itself (gain-node connections, effects chains,
fades, analysers, media elements): the claims are about the stored
volume values, the channel registry and the playing-sound registry.
-/

/-! ## VolumeNodes -/

/-- Error raised by `VolumeNodes.setVolume` on a negative value
(source: `throw new Error('Cannot set negative volume')`). -/
inductive VolumeError
  | InvalidArgument
deriving DecidableEq, Repr

/-- State of a `VolumeNodes` instance, as far as the explicit volume is
concerned: `gain` is `volumeGainNode.gain.value`, and
`volumeValueBeforeMute` the eponymous private field (`undefined` is
`none`).  The fade gain node is independent of all claims treated here
and is not part of the state. -/
structure VolumeNodes where
  gain : ℚ
  volumeValueBeforeMute : Option ℚ
deriving DecidableEq, Repr

namespace VolumeNodes

/-- A fresh `VolumeNodes` constructed with the default `volume = 1`:
`createGain()` initialises the gain to 1 and the constructor's
`setVolume(1)` is then the no-op branch. -/
def init : VolumeNodes := ⟨1, none⟩

/-- `getVolume()`: returns `volumeGainNode.gain.value`. -/
def getVolume (s : VolumeNodes) : ℚ := s.gain

/-- `setVolume(value)`.  Returns the new state, the list of
volume-change notifications dispatched during the call — each list
element records `volumeGainNode.gain.value` as observable at the
instant `dispatchVolumeChange()` runs — and the error outcome.
Mirrors the source order: negative check, equality early-return,
`volumeValueBeforeMute` update, dispatch, and only then the write of
`volumeGainNode.gain.value` (so the dispatched notification observes
the old gain). -/
def setVolume (s : VolumeNodes) (value : ℚ) :
    (VolumeNodes × List ℚ) × Except VolumeError Unit :=
  if value < 0 then ((s, []), .error .InvalidArgument)
  else if value = s.gain then ((s, []), .ok ())
  else
    ((⟨value, if value = 0 then some 1 else none⟩, [s.gain]), .ok ())

/-- `mute()`: if the current volume is positive, remember it in
`volumeValueBeforeMute`, set the gain to 0, then dispatch (the
notification observes the already-written 0). -/
def mute (s : VolumeNodes) : VolumeNodes × List ℚ :=
  if s.gain > 0 then (⟨0, some s.gain⟩, [0]) else (s, [])

/-- `unmute()`: if the current volume is 0, restore
`volumeValueBeforeMute ?? 1`, then dispatch (the notification observes
the already-written restored value).  `volumeValueBeforeMute` itself is
not cleared by the source. -/
def unmute (s : VolumeNodes) : VolumeNodes × List ℚ :=
  if s.gain = 0 then
    (⟨s.volumeValueBeforeMute.getD 1, s.volumeValueBeforeMute⟩,
      [s.volumeValueBeforeMute.getD 1])
  else (s, [])

end VolumeNodes

/-! ## Channels (the mixer) -/

/-- `ChannelType`: `'monophonic' | 'polyphonic'`. -/
inductive ChannelType
  | monophonic
  | polyphonic
deriving DecidableEq, Repr

/-- `CreateChannelOptions`: only the `type` field (default
`'polyphonic'`) is observable through the registry operations the
claims are about; `volume`, `effects` and `analyseMode` configure the
out-of-scope audio graph. -/
structure CreateChannelOptions where
  type : Option ChannelType := none
deriving DecidableEq, Repr

/-- A `Channel` as observable through the mixer's registries: its
(unique, per mixer) `name` and its `type`.  Its `VolumeNodes` and the
graph wiring are out of scope here.  Because `createChannel` rejects
duplicate names, structural equality of registered channels coincides
with the JS reference equality (`===`) the source uses. -/
structure Channel where
  name : String
  type : ChannelType
deriving DecidableEq, Repr

/-- A `PlayingSound` as registered in the mixer's `playingSounds`
array: the `sound` it plays (by name), and the optional `Channel` it
targets (`none` means the master output).  The `id` field models JS
object identity: each `new PlayingSound(...)` is a distinct reference,
so the mixer state carries a counter handing out fresh ids. -/
structure PlayingSound where
  id : ℕ
  soundName : String
  channel : Option Channel
deriving DecidableEq, Repr

/-- Errors of the mixer operations, per the spec's taxonomy; each
constructor corresponds to one `throw new Error(...)` site in the
source (`InvalidArgument`: blank channel name; `DuplicateChannel`:
existing name; `ChannelNotFound`: unknown channel selector;
`SampleNotFound`: unknown sound name on `play`; `NotRegistered`:
removal of an unlisted `PlayingSound`). -/
inductive ChannelsError
  | InvalidArgument
  | DuplicateChannel
  | ChannelNotFound
  | SampleNotFound
  | NotRegistered
deriving DecidableEq, Repr

/-- The optional channel parameter taken by `play`, `stopAll`,
`setVolume` etc.: either a channel's name or a channel instance. -/
inductive ChannelSelector
  | byName (name : String)
  | byInstance (ch : Channel)
deriving DecidableEq, Repr

/-- State of a `Channels` (mixer) instance: `channelsByName` (an
association list keyed by channel name, in insertion order),
`playingSounds` (in play order), the set of sample names the
`sampleManager` knows (`samples`), and the fresh-identity counter for
`PlayingSound` construction. -/
structure Channels where
  channelsByName : List (String × Channel)
  playingSounds : List PlayingSound
  samples : List String
  nextId : ℕ
deriving DecidableEq, Repr

namespace Channels

/-- A freshly constructed mixer holding the given samples: no
channels, no playing sounds. -/
def initial (samples : List String) : Channels :=
  ⟨[], [], samples, 0⟩

/-- `createChannel(name, createChannelOptions)`: rejects a blank name,
then a duplicate name, then constructs the `Channel` (applying the
`type = 'polyphonic'` default) and stores it under its name. -/
def createChannel (s : Channels) (name : String)
    (createChannelOptions : CreateChannelOptions := {}) :
    Channels × Except ChannelsError Channel :=
  if name = "" then (s, .error .InvalidArgument)
  else if (s.channelsByName.lookup name).isSome then
    (s, .error .DuplicateChannel)
  else
    let channel : Channel :=
      ⟨name, createChannelOptions.type.getD ChannelType.polyphonic⟩
    ({ s with channelsByName := s.channelsByName ++ [(name, channel)] },
      .ok channel)

/-- `getOptionalChannelByNameOrInstance(channel)`: a string selector
that names no registered channel throws; otherwise a string selector
is looked up, an instance selector is returned as-is, and an absent
selector yields `undefined` (the master). -/
def getOptionalChannelByNameOrInstance (s : Channels)
    (channel : Option ChannelSelector) :
    Except ChannelsError (Option Channel) :=
  match channel with
  | none => .ok none
  | some (.byName n) =>
    match s.channelsByName.lookup n with
    | none => .error .ChannelNotFound
    | some ch => .ok (some ch)
  | some (.byInstance ch) => .ok (some ch)

/-- `removePlayingSound(playingSound)`: `indexOf` finds the first
occurrence; found, it is `splice`d out (`List.erase` removes exactly
the first occurrence); not found, the call throws. -/
def removePlayingSound (s : Channels) (playingSound : PlayingSound) :
    Channels × Except ChannelsError Unit :=
  if playingSound ∈ s.playingSounds then
    ({ s with playingSounds := s.playingSounds.erase playingSound }, .ok ())
  else (s, .error .NotRegistered)

/-- Modelled from the spec: `PlayingSound.stop()` — the `PlayingSound`
class itself is not among the given sources, only its callers.  Per
§4.3/§2 of the spec, `stop()` stops the underlying audio and the
instance "self-removes from the Mixer on completion or stop", with
deregistration happening exactly once per instance (§8: a second
`stop()` on the same instance must not crash and must not decrement
the registry again, the end-of-playback deregistration having already
run).  So: an instance still listed is deregistered via the mixer's
removal path; an instance no longer listed is left alone. -/
def stopPlayingSound (s : Channels) (playingSound : PlayingSound) : Channels :=
  if playingSound ∈ s.playingSounds then
    { s with playingSounds := s.playingSounds.erase playingSound }
  else s

/-- `stopAll({ channel } = {})`: resolves the optional selector (which
can throw `ChannelNotFound`), snapshots the registry filtered by
`channelToStop ? channel === channelToStop : true`, and calls
`stop()` on each instance of the snapshot in order. -/
def stopAll (s : Channels) (channel : Option ChannelSelector := none) :
    Channels × Except ChannelsError Unit :=
  match getOptionalChannelByNameOrInstance s channel with
  | .error e => (s, .error e)
  | .ok channelToStop =>
    let toStop := s.playingSounds.filter fun ps =>
      match channelToStop with
      | some c => decide (ps.channel = some c)
      | none => true
    (toStop.foldl stopPlayingSound s, .ok ())

/-- `play(name, { channel, ...playSoundOptions } = {})`: resolve the
sample (`SampleNotFound` if absent), resolve the optional channel
(`ChannelNotFound` if a name matches nothing), construct the
`PlayingSound` (a fresh identity), then — if the resolved channel is
monophonic — `stopAll({ channel })`, and finally push the new instance
onto `playingSounds`.  The playback options do not touch the
registries and are out of scope. -/
def play (s : Channels) (name : String)
    (channel : Option ChannelSelector := none) :
    Channels × Except ChannelsError PlayingSound :=
  if name ∈ s.samples then
    match getOptionalChannelByNameOrInstance s channel with
    | .error e => (s, .error e)
    | .ok channelForSound =>
      let playingSound : PlayingSound := ⟨s.nextId, name, channelForSound⟩
      let s₁ : Channels := { s with nextId := s.nextId + 1 }
      match (if channelForSound.map Channel.type = some ChannelType.monophonic
          then stopAll s₁ channel else (s₁, .ok ())) with
      | (s₂, .error e) => (s₂, .error e)
      | (s₂, .ok _) =>
        ({ s₂ with playingSounds := s₂.playingSounds ++ [playingSound] },
          .ok playingSound)
  else (s, .error .SampleNotFound)

end Channels

/-- One mixer operation touching the playing-sound registry, for
stating invariants over arbitrary operation sequences. -/
inductive MixerOp
  | play (name : String) (channel : Option ChannelSelector)
  | stop (playingSound : PlayingSound)
  | stopAll (channel : Option ChannelSelector)
  | createChannel (name : String) (opts : CreateChannelOptions)
deriving Repr

/-- Run one operation, keeping the state it leaves behind (errors
propagate to the caller and leave the state as modelled above). -/
def applyOp (s : Channels) : MixerOp → Channels
  | .play n ch => (Channels.play s n ch).1
  | .stop ps => Channels.stopPlayingSound s ps
  | .stopAll ch => (Channels.stopAll s ch).1
  | .createChannel n o => (Channels.createChannel s n o).1


/-- Well-formedness of a mixer state: the registry holds each
`PlayingSound` at most once, and every registered instance carries an
identity already handed out (below `nextId`).  Every state reachable
from a fresh mixer satisfies this (proved below). -/
def Channels.WF (s : Channels) : Prop :=
  s.playingSounds.Nodup ∧ ∀ ps ∈ s.playingSounds, ps.id < s.nextId

instance (s : Channels) : Decidable s.WF := by
  unfold Channels.WF
  infer_instance

/-! ### Concrete test fixture

The spec's own scenario (§8): a mixer knowing sounds `"a"` and `"b"`,
a monophonic channel `"fx"`, and `"a"` already playing on `"fx"`. -/

/-- The monophonic channel `"fx"` of the spec's voice-stealing test. -/
def fxChannel : Channel := ⟨"fx", ChannelType.monophonic⟩

/-- Fresh mixer knowing sounds `"a"` and `"b"`. -/
def demoMixer : Channels := Channels.initial ["a", "b"]

/-- `demoMixer` after `createChannel("fx", { type: 'monophonic' })`. -/
def demoMixerFx : Channels :=
  (demoMixer.createChannel "fx" ⟨some ChannelType.monophonic⟩).1

/-- `demoMixerFx` after `play("a", { channel: "fx" })`. -/
def demoMixerPlaying : Channels :=
  (demoMixerFx.play "a" (some (ChannelSelector.byName "fx"))).1

/-! ## Claims about `VolumeNodes` (C3, C4, C5, C9, C10) -/

/-- **C3**: for every `v ≥ 0`, after `setVolume(v)` a `getVolume()`
returns `v`; for every `v < 0`, `setVolume(v)` fails with
`InvalidArgument` and the stored volume is unchanged (the returned
state is the input state, no notification is dispatched). -/
theorem c3_set_volume_get_volume (s : VolumeNodes) (v : ℚ) :
    (0 ≤ v → (s.setVolume v).2 = Except.ok () ∧
      ((s.setVolume v).1.1).getVolume = v) ∧
    (v < 0 → s.setVolume v = ((s, []), Except.error .InvalidArgument)) := by
  constructor
  · intro h0
    unfold VolumeNodes.setVolume VolumeNodes.getVolume
    rw [if_neg (not_lt.mpr h0)]
    by_cases hv : v = s.gain
    · simp [hv]
    · simp [hv]
  · intro hneg
    unfold VolumeNodes.setVolume
    rw [if_pos hneg]

/-- Witness for C3 at `v = 3/5` and `v = -1` on a fresh controller. -/
theorem c3_witness :
    ((VolumeNodes.init.setVolume (3/5)).2 = Except.ok () ∧
      ((VolumeNodes.init.setVolume (3/5)).1.1).getVolume = 3/5) ∧
    VolumeNodes.init.setVolume (-1) =
      ((VolumeNodes.init, []), Except.error .InvalidArgument) :=
  ⟨(c3_set_volume_get_volume VolumeNodes.init (3/5)).1 (by norm_num),
   (c3_set_volume_get_volume VolumeNodes.init (-1)).2 (by norm_num)⟩

/-- **C4**: for every `v > 0`, after `setVolume(v); mute()` the volume
reads 0, and a subsequent `unmute()` restores it to `v`; `mute()` at
volume 0 is a no-op (no state change, no notification), and `unmute()`
at a non-zero volume is a no-op. -/
theorem c4_mute_unmute_round_trip (s : VolumeNodes) (v : ℚ) :
    (0 < v →
      (((s.setVolume v).1.1).mute.1).getVolume = 0 ∧
      ((((s.setVolume v).1.1).mute.1).unmute.1).getVolume = v) ∧
    (s.getVolume = 0 → s.mute = (s, [])) ∧
    (s.getVolume ≠ 0 → s.unmute = (s, [])) := by
  refine ⟨fun hv => ?_, fun h0 => ?_, fun h0 => ?_⟩
  · have hgain : ((s.setVolume v).1.1).gain = v := by
      unfold VolumeNodes.setVolume
      rw [if_neg (not_lt.mpr hv.le)]
      by_cases hveq : v = s.gain
      · simp [hveq]
      · simp [hveq]
    unfold VolumeNodes.mute VolumeNodes.unmute VolumeNodes.getVolume
    rw [hgain, if_pos hv]
    simp
  · unfold VolumeNodes.getVolume at h0
    unfold VolumeNodes.mute
    rw [h0]
    simp
  · unfold VolumeNodes.getVolume at h0
    unfold VolumeNodes.unmute
    rw [if_neg h0]

/-- Witness for C4 at `v = 3/5` on a fresh controller, the no-op
clauses at an explicitly muted and a fresh controller. -/
theorem c4_witness :
    ((((VolumeNodes.init.setVolume (3/5)).1.1).mute.1).getVolume = 0 ∧
      (((((VolumeNodes.init.setVolume (3/5)).1.1).mute.1).unmute.1).getVolume
        = 3/5)) ∧
    VolumeNodes.mute ⟨0, some 1⟩ = (⟨0, some 1⟩, []) ∧
    VolumeNodes.unmute VolumeNodes.init = (VolumeNodes.init, []) :=
  ⟨(c4_mute_unmute_round_trip VolumeNodes.init (3/5)).1 (by norm_num),
   (c4_mute_unmute_round_trip ⟨0, some 1⟩ 0).2.1 (by norm_num [VolumeNodes.getVolume]),
   (c4_mute_unmute_round_trip VolumeNodes.init 0).2.2 (by norm_num [VolumeNodes.getVolume, VolumeNodes.init])⟩

/-- **C5**: whenever the volume reaches 0 through `setVolume(0)` (the
current volume being non-zero, so the call is a real transition), the
implicit-mute marker is set to 1, a subsequent `unmute()` restores the
volume to 1, and issuing `setVolume(0)` again first is a no-op that
preserves this restore-to-1 behaviour. -/
theorem c5_implicit_mute_recovery (s : VolumeNodes) (h : s.getVolume ≠ 0) :
    ∃ s₁ : VolumeNodes,
      s.setVolume 0 = ((s₁, [s.gain]), Except.ok ()) ∧
      s₁.volumeValueBeforeMute = some 1 ∧
      (s₁.unmute.1).getVolume = 1 ∧
      s₁.setVolume 0 = ((s₁, []), Except.ok ()) ∧
      (((s₁.setVolume 0).1.1).unmute.1).getVolume = 1 := by
  unfold VolumeNodes.getVolume at h
  refine ⟨⟨0, some 1⟩, ?_, rfl, rfl, rfl, rfl⟩
  unfold VolumeNodes.setVolume
  rw [if_neg (by norm_num), if_neg (fun hh => h hh.symm)]
  simp

/-- Witness for C5 on a fresh controller (volume 1 ≠ 0). -/
theorem c5_witness :
    ∃ s₁ : VolumeNodes,
      VolumeNodes.init.setVolume 0 = ((s₁, [VolumeNodes.init.gain]), Except.ok ()) ∧
      s₁.volumeValueBeforeMute = some 1 ∧
      (s₁.unmute.1).getVolume = 1 ∧
      s₁.setVolume 0 = ((s₁, []), Except.ok ()) ∧
      (((s₁.setVolume 0).1.1).unmute.1).getVolume = 1 :=
  c5_implicit_mute_recovery VolumeNodes.init
    (by norm_num [VolumeNodes.getVolume, VolumeNodes.init])

/-- **C10**: for every `v > 0`, after `setVolume(v); mute()`, a
`setVolume(0)` is the early-return no-op (the gain is already 0), so
it preserves the explicit-mute restore target `v`, and the subsequent
`unmute()` restores the volume to `v`, not to the implicit default 1. -/
theorem c10_explicit_mute_survives_set_zero (s : VolumeNodes) (v : ℚ)
    (hv : 0 < v) :
    ((((s.setVolume v).1.1).mute.1).setVolume 0
        = ((((s.setVolume v).1.1).mute.1, []), Except.ok ())) ∧
    (((((((s.setVolume v).1.1).mute.1).setVolume 0).1.1).unmute.1).getVolume
        = v) := by
  have hgain : ((s.setVolume v).1.1).gain = v := by
    unfold VolumeNodes.setVolume
    rw [if_neg (not_lt.mpr hv.le)]
    by_cases hveq : v = s.gain
    · simp [hveq]
    · simp [hveq]
  have hmute : ((s.setVolume v).1.1).mute = (⟨0, some v⟩, [0]) := by
    unfold VolumeNodes.mute
    rw [hgain, if_pos hv]
  rw [hmute]
  have hset : VolumeNodes.setVolume ⟨0, some v⟩ 0
      = ((⟨0, some v⟩, []), Except.ok ()) := by
    unfold VolumeNodes.setVolume
    norm_num
  rw [hset]
  exact ⟨rfl, rfl⟩

/-- Witness for C10 at `v = 3/5` on a fresh controller. -/
theorem c10_witness :
    ((((VolumeNodes.init.setVolume (3/5)).1.1).mute.1).setVolume 0
        = ((((VolumeNodes.init.setVolume (3/5)).1.1).mute.1, []),
            Except.ok ())) ∧
    (((((((VolumeNodes.init.setVolume (3/5)).1.1).mute.1).setVolume
          0).1.1).unmute.1).getVolume = 3/5) :=
  c10_explicit_mute_survives_set_zero VolumeNodes.init (3/5) (by norm_num)

/-- **C9, counterexample**: the claim asserts that at the moment a
volume-change notification is emitted, the operation's effect on the
stored volume is already fully applied.  For `setVolume` this is
false: `setVolume(1/2)` on a fresh controller (volume 1) dispatches
exactly one notification, and at the instant of dispatch the stored
volume still reads the old value 1, not the new value 1/2 — the
source dispatches *before* writing `volumeGainNode.gain.value`. -/
theorem c9_counterexample :
    VolumeNodes.init.setVolume (1/2)
        = (((⟨1/2, none⟩ : VolumeNodes), [1]), Except.ok ()) ∧
      ((VolumeNodes.init.setVolume (1/2)).1.1).getVolume = 1/2 ∧
      (1 : ℚ) ≠ 1/2 := by
  refine ⟨?_, ?_, by norm_num⟩
  · unfold VolumeNodes.setVolume VolumeNodes.init
    norm_num
  · unfold VolumeNodes.setVolume VolumeNodes.init VolumeNodes.getVolume
    norm_num

/-- **C9, amended**: every real volume change emits exactly one
volume-change notification.  For an effective `mute()` and an
effective `unmute()` the new volume is already applied at the moment
of emission (the notification observes the new stored value), but
`setVolume` dispatches *before* writing the new gain, so its
notification observes the previous volume; the effect is fully
applied by the time each call returns. -/
theorem c9_notification_discipline (s : VolumeNodes) (v : ℚ) :
    (0 ≤ v → v ≠ s.gain →
      s.setVolume v
        = (((⟨v, if v = 0 then some 1 else none⟩ : VolumeNodes), [s.gain]),
            Except.ok ())) ∧
    (0 < s.gain → s.mute = (⟨0, some s.gain⟩, [0])) ∧
    (s.gain = 0 →
      s.unmute = (⟨s.volumeValueBeforeMute.getD 1, s.volumeValueBeforeMute⟩,
        [s.volumeValueBeforeMute.getD 1])) := by
  refine ⟨fun h0 hne => ?_, fun hpos => ?_, fun h0 => ?_⟩
  · unfold VolumeNodes.setVolume
    rw [if_neg (not_lt.mpr h0), if_neg hne]
  · unfold VolumeNodes.mute
    rw [if_pos hpos]
  · unfold VolumeNodes.unmute
    rw [if_pos h0]

/-- Witness for the amended C9: a real `setVolume`, an effective
`mute` and an effective `unmute` at concrete states. -/
theorem c9_witness :
    (VolumeNodes.init.setVolume (1/2)
        = (((⟨1/2, none⟩ : VolumeNodes), [VolumeNodes.init.gain]),
            Except.ok ())) ∧
    (VolumeNodes.init.mute = (⟨0, some VolumeNodes.init.gain⟩, [0])) ∧
    (VolumeNodes.unmute ⟨0, some (3/5)⟩
        = (⟨(Option.some (3/5 : ℚ)).getD 1, some (3/5)⟩,
            [(Option.some (3/5 : ℚ)).getD 1])) := by
  refine ⟨?_, ?_, ?_⟩
  · have h := (c9_notification_discipline VolumeNodes.init (1/2)).1
      (by norm_num) (by norm_num [VolumeNodes.init])
    simpa using h
  · exact (c9_notification_discipline VolumeNodes.init 0).2.1
      (by norm_num [VolumeNodes.init])
  · exact (c9_notification_discipline ⟨0, some (3/5)⟩ 0).2.2 rfl

/-! ## Helper lemmas on the mixer's registry operations -/

/-- Folding `List.erase` over removals none of which equals `a` keeps a
leading `a` in place. -/
theorem foldl_erase_cons {α : Type} [DecidableEq α] (a : α) :
    ∀ (r l : List α), (∀ x ∈ r, x ≠ a) →
      r.foldl List.erase (a :: l) = a :: r.foldl List.erase l := by
  intro r
  induction r with
  | nil => intro l _; rfl
  | cons x r ih =>
    intro l h
    have hxa : x ≠ a := h x (List.mem_cons_self x r)
    have hx : (a :: l).erase x = a :: l.erase x :=
      List.erase_cons_tail (by simpa using Ne.symm hxa)
    simp only [List.foldl_cons, hx]
    exact ih (l.erase x) fun y hy => h y (List.mem_cons_of_mem x hy)

/-- Erasing, one by one, every element of `l.filter p` from `l` leaves
exactly `l.filter (fun x => !p x)`: each snapshot entry removes one
matching occurrence, duplicates included. -/
theorem foldl_erase_filter {α : Type} [DecidableEq α] (p : α → Bool) :
    ∀ l : List α, (l.filter p).foldl List.erase l = l.filter (fun x => !p x) := by
  intro l
  induction l with
  | nil => rfl
  | cons a l ih =>
    by_cases hpa : p a
    · rw [List.filter_cons_of_pos hpa, List.foldl_cons, List.erase_cons_head,
        ih, List.filter_cons_of_neg (by simp [hpa])]
    · rw [List.filter_cons_of_neg hpa,
        foldl_erase_cons a (l.filter p) l (by
          intro x hx hxa
          exact hpa (hxa ▸ List.of_mem_filter hx)),
        ih, List.filter_cons_of_pos (by simp [hpa])]

/-- `stopPlayingSound` is plain first-occurrence erasure on the
registry (erasing an absent element is the identity). -/
theorem Channels.stopPlayingSound_eq (s : Channels) (ps : PlayingSound) :
    Channels.stopPlayingSound s ps
      = { s with playingSounds := s.playingSounds.erase ps } := by
  unfold Channels.stopPlayingSound
  split
  · rfl
  · rename_i h
    rw [List.erase_of_not_mem h]

/-- Folding `stopPlayingSound` only rewrites the registry, by folded
erasure. -/
theorem Channels.foldl_stop (r : List PlayingSound) (s : Channels) :
    r.foldl Channels.stopPlayingSound s
      = { s with playingSounds := r.foldl List.erase s.playingSounds } := by
  induction r generalizing s with
  | nil => rfl
  | cons x r ih =>
    simp only [List.foldl_cons]
    rw [Channels.stopPlayingSound_eq, ih]

/-- Channel-selector resolution reads only `channelsByName`. -/
theorem Channels.resolve_congr (s t : Channels)
    (channel : Option ChannelSelector)
    (h : s.channelsByName = t.channelsByName) :
    Channels.getOptionalChannelByNameOrInstance s channel
      = Channels.getOptionalChannelByNameOrInstance t channel := by
  unfold Channels.getOptionalChannelByNameOrInstance
  cases channel with
  | none => rfl
  | some sel =>
    cases sel with
    | byName n => rw [h]
    | byInstance ch => rfl

/-- `stopAll` with a selector resolving to channel `c` keeps exactly
the instances not targeting `c`, in order, and touches nothing else. -/
theorem Channels.stopAll_resolved (s : Channels)
    (channel : Option ChannelSelector) (c : Channel)
    (h : Channels.getOptionalChannelByNameOrInstance s channel
      = Except.ok (some c)) :
    Channels.stopAll s channel
      = ({ s with playingSounds :=
            s.playingSounds.filter fun ps => !decide (ps.channel = some c) },
          Except.ok ()) := by
  unfold Channels.stopAll
  rw [h]
  simp only
  rw [Channels.foldl_stop, foldl_erase_filter]

/-- `stopAll` with no selector empties the registry. -/
theorem Channels.stopAll_no_selector (s : Channels) :
    Channels.stopAll s none = ({ s with playingSounds := [] }, Except.ok ()) := by
  unfold Channels.stopAll Channels.getOptionalChannelByNameOrInstance
  simp only
  rw [Channels.foldl_stop]
  simp only [List.filter_true]
  have h := foldl_erase_filter (fun _ : PlayingSound => true) s.playingSounds
  simp only [List.filter_true] at h
  rw [h]
  simp

/-! ## Helper lemmas on the channel registry -/

/-- Appending a binding for a key not yet present makes the lookup of
that key find it. -/
theorem lookup_append_right {β : Type} (l : List (String × β)) (name : String)
    (b : β) (h : l.lookup name = none) :
    (l ++ [(name, b)]).lookup name = some b := by
  induction l with
  | nil => simp [List.lookup]
  | cons kv l ih =>
    obtain ⟨k, v⟩ := kv
    by_cases hk : (name == k) = true
    · simp [List.lookup, hk] at h
    · have hk' : (name == k) = false := by simpa using hk
      simp only [List.cons_append, List.lookup, hk'] at h ⊢
      exact ih h

/-! ## Characterisations of `Channels.play` -/

/-- `play` with no channel selected (master bus): the sound is simply
appended. -/
theorem Channels.play_resolved_master (s : Channels) (name : String)
    (channel : Option ChannelSelector)
    (hname : name ∈ s.samples)
    (hres : Channels.getOptionalChannelByNameOrInstance s channel
      = Except.ok none) :
    Channels.play s name channel
      = ({ s with
            playingSounds := s.playingSounds ++ [⟨s.nextId, name, none⟩],
            nextId := s.nextId + 1 },
          Except.ok ⟨s.nextId, name, none⟩) := by
  unfold Channels.play
  rw [if_pos hname, hres]
  simp

/-- `play` on a polyphonic channel: no voice-stealing, the sound is
appended. -/
theorem Channels.play_resolved_poly (s : Channels) (name : String)
    (channel : Option ChannelSelector) (c : Channel)
    (hname : name ∈ s.samples)
    (hres : Channels.getOptionalChannelByNameOrInstance s channel
      = Except.ok (some c))
    (hpoly : c.type = ChannelType.polyphonic) :
    Channels.play s name channel
      = ({ s with
            playingSounds := s.playingSounds ++ [⟨s.nextId, name, some c⟩],
            nextId := s.nextId + 1 },
          Except.ok ⟨s.nextId, name, some c⟩) := by
  unfold Channels.play
  rw [if_pos hname, hres]
  simp [hpoly]

/-- `play` on a monophonic channel: all instances targeting the
channel are stopped, then the new instance is appended. -/
theorem Channels.play_resolved_mono (s : Channels) (name : String)
    (channel : Option ChannelSelector) (c : Channel)
    (hname : name ∈ s.samples)
    (hres : Channels.getOptionalChannelByNameOrInstance s channel
      = Except.ok (some c))
    (hmono : c.type = ChannelType.monophonic) :
    Channels.play s name channel
      = ({ s with
            playingSounds :=
              (s.playingSounds.filter fun p => !decide (p.channel = some c))
                ++ [⟨s.nextId, name, some c⟩],
            nextId := s.nextId + 1 },
          Except.ok ⟨s.nextId, name, some c⟩) := by
  unfold Channels.play
  rw [if_pos hname, hres]
  have hres₁ : Channels.getOptionalChannelByNameOrInstance
      { s with nextId := s.nextId + 1 } channel = Except.ok (some c) :=
    (Channels.resolve_congr { s with nextId := s.nextId + 1 } s channel rfl).trans
      hres
  have hstop :=
    Channels.stopAll_resolved { s with nextId := s.nextId + 1 } channel c hres₁
  simp [hmono, hstop]

/-! ## Claims about the mixer's error handling and stopping (C6, C7, C8, C1) -/

/-- **C6**: a play request for an unknown sound name fails with
`SampleNotFound`, and one for an unknown channel name fails with
`ChannelNotFound` (the sound lookup coming first); in both cases the
returned state is the input state — in particular no `PlayingSound`
was added to the registry. -/
theorem c6_play_error_handling (s : Channels) (name : String)
    (channel : Option ChannelSelector) :
    (name ∉ s.samples →
      Channels.play s name channel = (s, Except.error .SampleNotFound)) ∧
    (∀ cn : String, name ∈ s.samples →
      channel = some (.byName cn) → s.channelsByName.lookup cn = none →
      Channels.play s name channel = (s, Except.error .ChannelNotFound)) := by
  constructor
  · intro hname
    unfold Channels.play
    rw [if_neg hname]
  · intro cn hname hch hlook
    subst hch
    have hres : Channels.getOptionalChannelByNameOrInstance s
        (some (.byName cn)) = Except.error .ChannelNotFound := by
      unfold Channels.getOptionalChannelByNameOrInstance
      simp [hlook]
    unfold Channels.play
    rw [if_pos hname, hres]

/-- Witness for C6 on the fixture mixer: unknown sound `"x"`, then
known sound `"a"` on the unknown channel `"fx"` (not yet created). -/
theorem c6_witness :
    Channels.play demoMixer "x" none
        = (demoMixer, Except.error .SampleNotFound) ∧
    Channels.play demoMixer "a" (some (.byName "fx"))
        = (demoMixer, Except.error .ChannelNotFound) :=
  ⟨(c6_play_error_handling demoMixer "x" none).1 (by decide),
   (c6_play_error_handling demoMixer "a" (some (.byName "fx"))).2 "fx"
     (by decide) rfl (by decide)⟩

/-- **C7**: `createChannel` rejects the blank name `""` with
`InvalidArgument` and a name already registered with
`DuplicateChannel`, in both cases returning the unchanged state (so
the registered channels and their count are unchanged); for a fresh
non-blank name it registers the new channel under that name. -/
theorem c7_create_channel_validation (s : Channels) (name : String)
    (opts : CreateChannelOptions) :
    (Channels.createChannel s "" opts = (s, Except.error .InvalidArgument)) ∧
    (name ≠ "" → (s.channelsByName.lookup name).isSome →
      Channels.createChannel s name opts
        = (s, Except.error .DuplicateChannel)) ∧
    (name ≠ "" → s.channelsByName.lookup name = none →
      ∃ ch : Channel, ch.name = name ∧
        Channels.createChannel s name opts
          = ({ s with channelsByName := s.channelsByName ++ [(name, ch)] },
              Except.ok ch) ∧
        (s.channelsByName ++ [(name, ch)]).lookup name = some ch) := by
  refine ⟨?_, fun hne hdup => ?_, fun hne hnone => ?_⟩
  · unfold Channels.createChannel
    rw [if_pos rfl]
  · unfold Channels.createChannel
    rw [if_neg hne, if_pos hdup]
  · refine ⟨⟨name, opts.type.getD ChannelType.polyphonic⟩, rfl, ?_, ?_⟩
    · unfold Channels.createChannel
      rw [if_neg hne, if_neg (by simp [hnone])]
    · exact lookup_append_right _ _ _ hnone

/-- Witness for C7: blank name, duplicate `"fx"` on the fixture
already holding `"fx"`, and fresh `"fx"` on the fresh fixture. -/
theorem c7_witness :
    (Channels.createChannel demoMixer "" ⟨some ChannelType.monophonic⟩
        = (demoMixer, Except.error .InvalidArgument)) ∧
    (Channels.createChannel demoMixerFx "fx" ⟨some ChannelType.monophonic⟩
        = (demoMixerFx, Except.error .DuplicateChannel)) ∧
    (∃ ch : Channel, ch.name = "fx" ∧
      Channels.createChannel demoMixer "fx" ⟨some ChannelType.monophonic⟩
        = ({ demoMixer with
              channelsByName := demoMixer.channelsByName ++ [("fx", ch)] },
            Except.ok ch) ∧
      (demoMixer.channelsByName ++ [("fx", ch)]).lookup "fx" = some ch) :=
  ⟨(c7_create_channel_validation demoMixer "" ⟨some ChannelType.monophonic⟩).1,
   (c7_create_channel_validation demoMixerFx "fx"
      ⟨some ChannelType.monophonic⟩).2.1 (by decide) (by decide),
   (c7_create_channel_validation demoMixer "fx"
      ⟨some ChannelType.monophonic⟩).2.2 (by decide) (by decide)⟩

/-- **C8**: `stopAll` with a selector resolving to channel `c` removes
from the registry exactly the instances whose channel is `c`, keeping
every instance targeting another channel or the master, unchanged and
in order; `stopAll` with no selector stops every active instance. -/
theorem c8_stop_all_frame (s : Channels) (channel : Option ChannelSelector)
    (c : Channel) :
    (Channels.getOptionalChannelByNameOrInstance s channel
        = Except.ok (some c) →
      Channels.stopAll s channel
        = ({ s with playingSounds :=
              s.playingSounds.filter fun ps => !decide (ps.channel = some c) },
            Except.ok ())) ∧
    Channels.stopAll s none = ({ s with playingSounds := [] }, Except.ok ()) :=
  ⟨fun h => Channels.stopAll_resolved s channel c h,
   Channels.stopAll_no_selector s⟩

/-- Witness for C8 on the fixture with `"a"` playing on `"fx"`:
stopping `"fx"` filters the registry (and stopping with no selector
empties it). -/
theorem c8_witness :
    (Channels.stopAll demoMixerPlaying (some (.byName "fx"))
        = ({ demoMixerPlaying with playingSounds := demoMixerPlaying.playingSounds.filter fun ps => !decide (ps.channel = some fxChannel) },
            Except.ok ())) ∧
    Channels.stopAll demoMixerPlaying none
        = ({ demoMixerPlaying with playingSounds := [] }, Except.ok ()) :=
  ⟨(c8_stop_all_frame demoMixerPlaying (some (.byName "fx")) fxChannel).1
      rfl,
   (c8_stop_all_frame demoMixerPlaying none fxChannel).2⟩

/-- **C1**: a play request whose resolved channel `c` is monophonic
stops every instance targeting `c` before the new instance is
registered, so afterwards exactly one `PlayingSound` targeting `c`
remains in the registry: the new one. -/
theorem c1_monophonic_voice_stealing (s : Channels) (name : String)
    (channel : Option ChannelSelector) (c : Channel)
    (hname : name ∈ s.samples)
    (hres : Channels.getOptionalChannelByNameOrInstance s channel
      = Except.ok (some c))
    (hmono : c.type = ChannelType.monophonic) :
    (Channels.play s name channel).2
        = Except.ok ⟨s.nextId, name, some c⟩ ∧
    ((Channels.play s name channel).1.playingSounds.filter
        fun p => decide (p.channel = some c)) = [⟨s.nextId, name, some c⟩] := by
  rw [Channels.play_resolved_mono s name channel c hname hres hmono]
  refine ⟨rfl, ?_⟩
  simp [List.filter_filter]

/-- Witness for C1, the spec's scenario: with `"a"` already playing on
the monophonic `"fx"`, `play("b", { channel: "fx" })` leaves exactly
the new `"b"` instance targeting `"fx"`. -/
theorem c1_witness :
    (Channels.play demoMixerPlaying "b" (some (.byName "fx"))).2
        = Except.ok ⟨demoMixerPlaying.nextId, "b", some fxChannel⟩ ∧
    ((Channels.play demoMixerPlaying "b"
          (some (.byName "fx"))).1.playingSounds.filter
        fun p => decide (p.channel = some fxChannel))
      = [⟨demoMixerPlaying.nextId, "b", some fxChannel⟩] :=
  c1_monophonic_voice_stealing demoMixerPlaying "b"
    (some (.byName "fx")) fxChannel (by decide) rfl rfl

/-! ## The registry invariant (C2) -/

/-- A fold of erasures only ever shrinks the list. -/
theorem foldl_erase_subset {α : Type} [DecidableEq α] :
    ∀ (r l : List α), r.foldl List.erase l ⊆ l := by
  intro r
  induction r with
  | nil => exact fun l x hx => hx
  | cons a r ih =>
    intro l x hx
    simp only [List.foldl_cons] at hx
    exact List.erase_subset _ _ (ih (l.erase a) hx)

/-- A fold of erasures preserves duplicate-freedom. -/
theorem foldl_erase_nodup {α : Type} [DecidableEq α] :
    ∀ (r l : List α), l.Nodup → (r.foldl List.erase l).Nodup := by
  intro r
  induction r with
  | nil => exact fun l h => h
  | cons a r ih =>
    intro l h
    simp only [List.foldl_cons]
    exact ih _ (List.Nodup.erase a h)

/-- Rewriting the registry by a fold of erasures preserves
well-formedness (the counter is untouched). -/
theorem Channels.wf_erase_update (s : Channels) (r : List PlayingSound)
    (h : s.WF) :
    Channels.WF { s with playingSounds := r.foldl List.erase s.playingSounds } :=
  ⟨foldl_erase_nodup r _ h.1, fun q hq => h.2 q (foldl_erase_subset r _ hq)⟩

/-- `stopPlayingSound` preserves well-formedness. -/
theorem Channels.wf_stopPlayingSound (s : Channels) (ps : PlayingSound)
    (h : s.WF) : (Channels.stopPlayingSound s ps).WF := by
  rw [Channels.stopPlayingSound_eq]
  exact ⟨List.Nodup.erase ps h.1,
    fun q hq => h.2 q (List.mem_of_mem_erase hq)⟩

/-- `stopAll` preserves well-formedness. -/
theorem Channels.wf_stopAll (s : Channels) (channel : Option ChannelSelector)
    (h : s.WF) : ((Channels.stopAll s channel).1).WF := by
  cases hres : Channels.getOptionalChannelByNameOrInstance s channel with
  | error e =>
    have hs : Channels.stopAll s channel = (s, Except.error e) := by
      unfold Channels.stopAll
      rw [hres]
    rw [hs]
    exact h
  | ok co =>
    cases co with
    | none =>
      have hs : (Channels.stopAll s channel).1
          = { s with playingSounds := (s.playingSounds.filter fun _ => true).foldl List.erase s.playingSounds } := by
        unfold Channels.stopAll
        rw [hres]
        simp only
        rw [Channels.foldl_stop]
      rw [hs]
      exact Channels.wf_erase_update s _ h
    | some c =>
      have hs : (Channels.stopAll s channel).1
          = { s with playingSounds := (s.playingSounds.filter fun ps => decide (ps.channel = some c)).foldl List.erase s.playingSounds } := by
        unfold Channels.stopAll
        rw [hres]
        simp only
        rw [Channels.foldl_stop]
      rw [hs]
      exact Channels.wf_erase_update s _ h

/-- `createChannel` never touches the playing-sound registry, so it
preserves well-formedness. -/
theorem Channels.wf_createChannel (s : Channels) (name : String)
    (opts : CreateChannelOptions) (h : s.WF) :
    ((Channels.createChannel s name opts).1).WF := by
  unfold Channels.createChannel
  split
  · exact h
  · split
    · exact h
    · exact h

/-- Pushing a `PlayingSound` with the fresh identity `s.nextId` onto a
duplicate-free sublist of the registry, while bumping the counter,
preserves well-formedness. -/
theorem Channels.wf_push (s : Channels) (l : List PlayingSound)
    (co : Option Channel) (name : String)
    (hsub : l ⊆ s.playingSounds) (hnd : l.Nodup) (h : s.WF) :
    Channels.WF
      { s with
          playingSounds := l ++ [⟨s.nextId, name, co⟩],
          nextId := s.nextId + 1 } := by
  have hnotin : (⟨s.nextId, name, co⟩ : PlayingSound) ∉ l := by
    intro hin
    have hlt := h.2 _ (hsub hin)
    simp at hlt
  refine ⟨?_, ?_⟩
  · simp [List.nodup_append, hnd, hnotin]
  · intro q hq
    rcases List.mem_append.mp hq with hql | hqr
    · exact Nat.lt_succ_of_lt (h.2 q (hsub hql))
    · have : q = ⟨s.nextId, name, co⟩ := by simpa using hqr
      rw [this]
      exact Nat.lt_succ_self _

/-- `play` preserves well-formedness. -/
theorem Channels.wf_play (s : Channels) (name : String)
    (channel : Option ChannelSelector) (h : s.WF) :
    ((Channels.play s name channel).1).WF := by
  by_cases hname : name ∈ s.samples
  · cases hres : Channels.getOptionalChannelByNameOrInstance s channel with
    | error e =>
      have hp : Channels.play s name channel = (s, Except.error e) := by
        unfold Channels.play
        rw [if_pos hname, hres]
      rw [hp]
      exact h
    | ok co =>
      cases co with
      | none =>
        rw [Channels.play_resolved_master s name channel hname hres]
        exact Channels.wf_push s s.playingSounds none name
          (fun x hx => hx) h.1 h
      | some c =>
        cases hc : c.type with
        | monophonic =>
          rw [Channels.play_resolved_mono s name channel c hname hres hc]
          exact Channels.wf_push s _ (some c) name
            (fun x hx => List.mem_of_mem_filter hx) (List.Nodup.filter _ h.1) h
        | polyphonic =>
          rw [Channels.play_resolved_poly s name channel c hname hres hc]
          exact Channels.wf_push s s.playingSounds (some c) name
            (fun x hx => hx) h.1 h
  · have hp : Channels.play s name channel
        = (s, Except.error .SampleNotFound) := by
      unfold Channels.play
      rw [if_neg hname]
    rw [hp]
    exact h

/-- Every mixer operation preserves well-formedness. -/
theorem Channels.wf_applyOp (s : Channels) (op : MixerOp) (h : s.WF) :
    (applyOp s op).WF := by
  cases op with
  | play n ch => exact Channels.wf_play s n ch h
  | stop ps => exact Channels.wf_stopPlayingSound s ps h
  | stopAll ch => exact Channels.wf_stopAll s ch h
  | createChannel n o => exact Channels.wf_createChannel s n o h

/-- Well-formedness is invariant under any operation sequence. -/
theorem Channels.wf_run (ops : List MixerOp) :
    ∀ s : Channels, s.WF → (ops.foldl applyOp s).WF := by
  induction ops with
  | nil => exact fun s h => h
  | cons op ops ih =>
    intro s h
    exact ih _ (Channels.wf_applyOp s op h)

/-- A fresh mixer is well-formed. -/
theorem Channels.wf_initial (samples : List String) :
    (Channels.initial samples).WF := by
  constructor
  · simp [Channels.initial]
  · simp [Channels.initial]

/-- **C2**: removing a `PlayingSound` absent from the registry fails
with `NotRegistered` (state unchanged); calling `stop()` twice on the
same instance is harmless — on a duplicate-free registry the second
call changes nothing, so the active-instance count is not decremented
twice (and, the operations being total, nothing crashes); and after
any sequence of mixer operations from a fresh mixer each active
`PlayingSound` appears at most once in the registry. -/
theorem c2_exactly_once_removal :
    (∀ (s : Channels) (ps : PlayingSound), ps ∉ s.playingSounds →
      Channels.removePlayingSound s ps
        = (s, Except.error .NotRegistered)) ∧
    (∀ (s : Channels) (ps : PlayingSound), s.playingSounds.Nodup →
      Channels.stopPlayingSound (Channels.stopPlayingSound s ps) ps
        = Channels.stopPlayingSound s ps) ∧
    (∀ (samples : List String) (ops : List MixerOp),
      ((ops.foldl applyOp (Channels.initial samples)).playingSounds).Nodup) := by
  refine ⟨fun s ps h => ?_, fun s ps h => ?_, fun samples ops => ?_⟩
  · unfold Channels.removePlayingSound
    rw [if_neg h]
  · by_cases hmem : ps ∈ s.playingSounds
    · rw [Channels.stopPlayingSound_eq s ps]
      unfold Channels.stopPlayingSound
      rw [if_neg (List.Nodup.not_mem_erase h)]
    · have h1 : Channels.stopPlayingSound s ps = s := by
        unfold Channels.stopPlayingSound
        rw [if_neg hmem]
      rw [h1, h1]
  · exact (Channels.wf_run ops (Channels.initial samples)
      (Channels.wf_initial samples)).1

/-- Witness for C2: removal from an empty registry errors; a double
stop on the fixture's single playing instance equals a single stop;
and the spec's play/stop sequence leaves a duplicate-free registry. -/
theorem c2_witness :
    (Channels.removePlayingSound demoMixer ⟨0, "a", none⟩
        = (demoMixer, Except.error .NotRegistered)) ∧
    (Channels.stopPlayingSound
        (Channels.stopPlayingSound demoMixerPlaying ⟨0, "a", some fxChannel⟩)
        ⟨0, "a", some fxChannel⟩
      = Channels.stopPlayingSound demoMixerPlaying ⟨0, "a", some fxChannel⟩) ∧
    ((([MixerOp.createChannel "fx" ⟨some ChannelType.monophonic⟩,
        MixerOp.play "a" (some (.byName "fx")),
        MixerOp.stop ⟨0, "a", some fxChannel⟩,
        MixerOp.stop ⟨0, "a", some fxChannel⟩].foldl applyOp
          (Channels.initial ["a", "b"])).playingSounds).Nodup) :=
  ⟨c2_exactly_once_removal.1 demoMixer ⟨0, "a", none⟩ (by decide),
   c2_exactly_once_removal.2.1 demoMixerPlaying ⟨0, "a", some fxChannel⟩
     (by decide),
   c2_exactly_once_removal.2.2 ["a", "b"]
     [MixerOp.createChannel "fx" ⟨some ChannelType.monophonic⟩,
      MixerOp.play "a" (some (.byName "fx")),
      MixerOp.stop ⟨0, "a", some fxChannel⟩,
      MixerOp.stop ⟨0, "a", some fxChannel⟩]⟩
